import Mathlib

/-!
A shallow embedding of the `generic_cache` crate (`src/lib.rs`): a single
TTL-cache `Object` with the operations `new`, `new_and_refresh`, `get`,
`refresh` and `get_or_refresh`.

Modelling conventions, taken from the source:
* `SystemTime` instants are nanoseconds since the epoch (`Nat`); durations
  are nanoseconds.  The source uses `std::time::SystemTime` (the wall
  clock), whose `elapsed()` returns `Err` when the clock has gone
  backwards; that case is `none` in `elapsedSince` below, and the
  `.unwrap()` in the source turns it into a panic, modelled by an `Option`
  result of the whole operation.
* `Duration::as_millis` truncates a duration to whole milliseconds; `ttl`
  is a `u128` number of milliseconds (its values here stay far below
  `2 ^ 128`, so `Nat` is an exact model).
* The stored `refresh_fn` closure is an opaque effectful callable.  It is
  modelled extensionally by a `World`: a stream giving the outcome of its
  `k`-th invocation, together with a count of the invocations performed so
  far.  `E` stands for the opaque `Box<dyn Error>` error type.
* Each operation takes the `SystemTime::now()` values it observes as
  explicit arguments, in source order; for `refresh` the single `now` is
  read after the refresh future completes, so it is the completion time.
-/

/-- `Duration::as_millis`: the number of whole milliseconds in a duration
given in nanoseconds (truncating division). -/
def asMillis (ns : Nat) : Nat := ns / 1000000

/-- `SystemTime::elapsed`: the duration from `last_update` to `now` (both
nanoseconds since the epoch).  `none` models the `Err(SystemTimeError)`
case, which occurs exactly when the wall clock has gone backwards, i.e.
`now < last_update`. -/
def elapsedSince (last_update now : Nat) : Option Nat :=
  if last_update ≤ now then some (now - last_update) else none

/-- `TimeoutError {}` from the source: the stateless staleness signal
returned by `Object::get`. -/
inductive TimeoutError : Type where
  | mk : TimeoutError
  deriving DecidableEq

/-- The fields of `Object<T, F>` other than the closure `refresh_fn`
(which is modelled separately by `World`): `ttl` in milliseconds,
`last_update` as a `SystemTime`, and the cached value `obj`. -/
structure Object (T : Type) where
  ttl : Nat
  last_update : Nat
  obj : T
  deriving DecidableEq

/-- The stored `refresh_fn` closure, modelled extensionally: `refresh_fn k`
is the outcome of the `k`-th invocation of the closure, and `calls` counts
the invocations performed so far. -/
structure World (E T : Type) where
  refresh_fn : Nat → Except E T
  calls : Nat

variable {T E : Type}

/-- One invocation `(self.refresh_fn)()` of the stored closure. -/
def World.invoke (w : World E T) : Except E T × World E T :=
  (w.refresh_fn w.calls, ⟨w.refresh_fn, w.calls + 1⟩)

/-- `Object::new`: builds the object from the supplied default value with
`last_update = SystemTime::now()`.  Its body contains no call of
`refresh_fn` and cannot fail, so the world is returned unchanged and the
result type is not an `Except`. -/
def Object.new (ttl : Nat) (obj : T) (w : World E T) (now : Nat) :
    Object T × World E T :=
  (⟨ttl, now, obj⟩, w)

/-- `Object::new_and_refresh`: invokes `refresh_fn` once; `?` propagates
its error unchanged (no object is built), otherwise the object is built
from the produced value with `last_update = SystemTime::now()` (`now`, the
completion time). -/
def Object.new_and_refresh (ttl : Nat) (w : World E T) (now : Nat) :
    Except E (Object T) × World E T :=
  match World.invoke w with
  | (Except.error e, w2) => (Except.error e, w2)
  | (Except.ok v, w2) => (Except.ok ⟨ttl, now, v⟩, w2)

/-- `Object::get`: if `self.last_update.elapsed().unwrap().as_millis() >
self.ttl` then `Err(TimeoutError {})`, else `Ok(&self.obj)`.  The outer
`none` models the panic of `.unwrap()` when `elapsed()` fails.  It takes
`&self`: no field is written and `refresh_fn` is not invoked. -/
def Object.get (o : Object T) (now : Nat) : Option (Except TimeoutError T) :=
  match elapsedSince o.last_update now with
  | none => none
  | some d =>
    if asMillis d > o.ttl then some (Except.error TimeoutError.mk)
    else some (Except.ok o.obj)

/-- `Object::refresh`: invokes `refresh_fn` once unconditionally; `?`
propagates its error unchanged, leaving every field as it was; on success
`self.obj` is replaced by the produced value and `self.last_update` is set
to `SystemTime::now()` (`now`, the completion time). -/
def Object.refresh (o : Object T) (w : World E T) (now : Nat) :
    Except E Unit × Object T × World E T :=
  match World.invoke w with
  | (Except.error e, w2) => (Except.error e, o, w2)
  | (Except.ok v, w2) => (Except.ok (), ⟨o.ttl, now, v⟩, w2)

/-- `Object::get_or_refresh`: performs the same staleness check as `get`
(including the `.unwrap()` panic, the outer `none`); when stale it invokes
`refresh_fn` once, `?` propagating its error unchanged, and on success
stores the produced value into `self.obj`; finally returns `Ok(&self.obj)`.
The body never assigns `self.last_update`. -/
def Object.get_or_refresh (o : Object T) (w : World E T) (now : Nat) :
    Option (Except E T × Object T × World E T) :=
  match elapsedSince o.last_update now with
  | none => none
  | some d =>
    if asMillis d > o.ttl then
      match World.invoke w with
      | (Except.error e, w2) => some (Except.error e, o, w2)
      | (Except.ok v, w2) => some (Except.ok v, ⟨o.ttl, o.last_update, v⟩, w2)
    else some (Except.ok o.obj, o, w)

/-- One method call on a cached object, tagged with the `SystemTime::now()`
value(s) it observes. -/
inductive Op : Type where
  | get (now : Nat)
  | refresh (now : Nat)
  | get_or_refresh (now : Nat)

/-- The visible outcome of one method call. -/
inductive OpResult (E T : Type) : Type where
  | got (r : Except TimeoutError T)
  | refreshed (r : Except E Unit)
  | fetched (r : Except E T)

/-- Small-step execution of one method call on the object/world pair;
`none` is a panic. -/
def step (o : Object T) (w : World E T) : Op → Option (OpResult E T × Object T × World E T)
  | Op.get now =>
    match Object.get o now with
    | none => none
    | some r => some (OpResult.got r, o, w)
  | Op.refresh now =>
    match Object.refresh o w now with
    | (r, o2, w2) => some (OpResult.refreshed r, o2, w2)
  | Op.get_or_refresh now =>
    match Object.get_or_refresh o w now with
    | none => none
    | some (r, o2, w2) => some (OpResult.fetched r, o2, w2)

/-- Execution of a sequence of method calls. -/
def runOps : Object T → World E T → List Op → Option (Object T × World E T)
  | o, w, [] => some (o, w)
  | o, w, op :: ops =>
    match step o w op with
    | none => none
    | some (_, o2, w2) => runOps o2 w2 ops

/-- Helper: a non-panicking `get_or_refresh` call never changes the
`last_update` or `ttl` fields, whichever branch it takes. -/
theorem get_or_refresh_frame (o : Object T) (w : World E T)
    (now : Nat) (r : Except E T) (o2 : Object T) (w2 : World E T)
    (h : Object.get_or_refresh o w now = some (r, o2, w2)) :
    o2.last_update = o.last_update ∧ o2.ttl = o.ttl := by
  unfold Object.get_or_refresh World.invoke at h
  split at h
  · exact Option.noConfusion h
  · split at h
    · split at h
      · cases h
        exact ⟨rfl, rfl⟩
      · cases h
        exact ⟨rfl, rfl⟩
    · cases h
      exact ⟨rfl, rfl⟩

/-- C1, counterexample: `ttl = 0`, `last_update = 0`, cached value `100`,
`refresh_fn` always succeeds with `200`.  At `now = 2000000` (2 ms) the
object is stale (`get` fails), and a successful `get_or_refresh` stores
the new value `200` and returns it — but the resulting object still has
`last_update = 0` and is still stale at the very same instant, refuting
"the last_refreshed timestamp is updated (the object becomes FRESH)". -/
theorem C1_counterexample :
    Object.get (T := Nat) ⟨0, 0, 100⟩ 2000000 =
      some (Except.error TimeoutError.mk) ∧
    Object.get_or_refresh (T := Nat) (E := Unit) ⟨0, 0, 100⟩
        ⟨fun _ => Except.ok 200, 0⟩ 2000000 =
      some (Except.ok 200, ⟨0, 0, 200⟩, ⟨fun _ => Except.ok 200, 1⟩) ∧
    Object.get (T := Nat) ⟨0, 0, 200⟩ 2000000 =
      some (Except.error TimeoutError.mk) :=
  ⟨rfl, rfl, rfl⟩

/-- C1 (amended): on a stale object (`elapsed` defined and its whole
milliseconds exceeding `ttl`), `get_or_refresh` invokes the refresh
operation exactly once (the call count rises by exactly one); on success
the cached value is replaced by the produced value and that value is
returned, but `last_update` is NOT updated (it, and `ttl`, are unchanged
on both outcomes, so the object does not become fresh); on failure the
error is propagated unchanged and the cached value is also untouched. -/
theorem C1_get_or_refresh_stale (o : Object T) (w : World E T) (now : Nat)
    (hclock : o.last_update ≤ now)
    (hstale : o.ttl < asMillis (now - o.last_update)) :
    ∃ r o2, Object.get_or_refresh o w now =
        some (r, o2, ⟨w.refresh_fn, w.calls + 1⟩) ∧
      o2.ttl = o.ttl ∧ o2.last_update = o.last_update ∧
      (∀ v, w.refresh_fn w.calls = Except.ok v →
        r = Except.ok v ∧ o2.obj = v) ∧
      (∀ e, w.refresh_fn w.calls = Except.error e →
        r = Except.error e ∧ o2.obj = o.obj) := by
  cases hr : w.refresh_fn w.calls with
  | ok v =>
    refine ⟨Except.ok v, ⟨o.ttl, o.last_update, v⟩, ?_, rfl, rfl, ?_, ?_⟩
    · simp [Object.get_or_refresh, elapsedSince, World.invoke, hclock, hr,
        Nat.lt_iff_add_one_le.mp hstale, gt_iff_lt, hstale]
    · intro v2 hv2
      cases hv2
      exact ⟨rfl, rfl⟩
    · intro e he
      cases he
  | error e =>
    refine ⟨Except.error e, o, ?_, rfl, rfl, ?_, ?_⟩
    · simp [Object.get_or_refresh, elapsedSince, World.invoke, hclock, hr,
        gt_iff_lt, hstale]
    · intro v hv
      cases hv
    · intro e2 he2
      cases he2
      exact ⟨rfl, rfl⟩

/-- C1, witness: the amended theorem applied at `ttl = 0`,
`last_update = 0`, `now = 2000000`, with a refresh operation that always
returns `200`. -/
theorem C1_witness :
    ∃ r o2, Object.get_or_refresh (T := Nat) (E := Unit) ⟨0, 0, 100⟩
        ⟨fun _ => Except.ok 200, 0⟩ 2000000 =
        some (r, o2, ⟨fun _ => Except.ok 200, 1⟩) ∧
      o2.ttl = 0 ∧ o2.last_update = 0 ∧
      (∀ v, (Except.ok 200 : Except Unit Nat) = Except.ok v →
        r = Except.ok v ∧ o2.obj = v) ∧
      (∀ e, (Except.ok 200 : Except Unit Nat) = Except.error e →
        r = Except.error e ∧ o2.obj = 100) :=
  C1_get_or_refresh_stale ⟨0, 0, 100⟩ ⟨fun _ => Except.ok 200, 0⟩ 2000000
    (by decide) (by decide)

/-- C2: on every non-panicking execution of `get_or_refresh` — fresh fast
path, stale with successful refresh, and stale with failed refresh — the
`last_update` field of the resulting object equals the one before the
call, and so does `ttl`; hence a refresh through `get_or_refresh` never
extends the freshness window. -/
theorem C2_get_or_refresh_keeps_last_update (o : Object T) (w : World E T)
    (now : Nat) (r : Except E T) (o2 : Object T) (w2 : World E T)
    (h : Object.get_or_refresh o w now = some (r, o2, w2)) :
    o2.last_update = o.last_update ∧ o2.ttl = o.ttl :=
  get_or_refresh_frame o w now r o2 w2 h

/-- C2, witness: the frame property applied to a concrete stale,
successfully refreshed object: `last_update` stays `5` and `ttl` stays
`0`. -/
theorem C2_witness :
    (Object.mk 0 5 (200 : Nat)).last_update = (Object.mk 0 5 (100 : Nat)).last_update ∧
    (Object.mk 0 5 (200 : Nat)).ttl = (Object.mk 0 5 (100 : Nat)).ttl :=
  C2_get_or_refresh_keeps_last_update (E := Unit) ⟨0, 5, 100⟩
    ⟨fun _ => Except.ok 200, 0⟩ 2000005 (Except.ok 200) ⟨0, 5, 200⟩
    ⟨fun _ => Except.ok 200, 1⟩ rfl

/-- C3, counterexample: the source computes staleness from
`std::time::SystemTime` — the wall clock — via
`self.last_update.elapsed().unwrap()`.  When the clock has moved backwards
(`now = 5` while `last_update = 10`), `elapsed()` fails and the `unwrap()`
panics (`none`): `get` is not total, refuting "never fails or panics for
any other reason (such as the clock having moved backwards)". -/
theorem C3_counterexample :
    Object.get (T := Nat) ⟨1000, 10, 100⟩ 5 = none := rfl

/-- C3 (amended): the staleness computation uses the wall clock
(`SystemTime`), which may go backwards; `get` panics exactly when the
clock has moved backwards since `last_update` (`now < last_update`), and
on every other state returns `Ok` or a `TimeoutError`. -/
theorem C3_get_panics_iff_clock_backwards (o : Object T) (now : Nat) :
    Object.get o now = none ↔ now < o.last_update := by
  unfold Object.get
  constructor
  · intro hcontr
    split at hcontr
    · rename_i heq
      unfold elapsedSince at heq
      by_cases h : o.last_update ≤ now
      · rw [if_pos h] at heq
        exact Option.noConfusion heq
      · omega
    · split at hcontr
      · exact Option.noConfusion hcontr
      · exact Option.noConfusion hcontr
  · intro hlt
    have h : elapsedSince o.last_update now = none := by
      unfold elapsedSince
      rw [if_neg (by omega)]
    rw [h]

/-- C4, counterexample: `ttl = 0`, `last_update = 0`, `now = 500000` — a
strictly positive elapsed time of half a millisecond.  `as_millis`
truncates it to `0`, which is not `> 0`, so `get` succeeds instead of
returning the claimed `TimeoutError`. -/
theorem C4_counterexample :
    0 < 500000 - 0 ∧
    Object.get (T := Nat) ⟨0, 0, 100⟩ 500000 = some (Except.ok 100) :=
  ⟨by decide, rfl⟩

/-- C4 (amended): with `ttl = 0` and the clock not moved backwards, `get`
fails with `TimeoutError` exactly when at least one full millisecond
(`1000000` ns) has elapsed; a strictly positive sub-millisecond elapsed
time still succeeds, because `as_millis` truncates it to `0`. -/
theorem C4_ttl_zero_first_read (v : T) (lu now : Nat) (h : lu ≤ now) :
    Object.get (⟨0, lu, v⟩ : Object T) now =
      if 1000000 ≤ now - lu then some (Except.error TimeoutError.mk)
      else some (Except.ok v) := by
  have hms : 0 < asMillis (now - lu) ↔ 1000000 ≤ now - lu := by
    unfold asMillis
    constructor
    · intro hp
      by_contra hc
      push_neg at hc
      rw [Nat.div_eq_of_lt hc] at hp
      exact Nat.lt_irrefl 0 hp
    · intro hle
      exact Nat.div_pos hle (by norm_num)
  by_cases hc : 1000000 ≤ now - lu
  · simp [Object.get, elapsedSince, h, hc, hms.mpr hc]
  · have hnp : ¬ 0 < asMillis (now - lu) := fun hp => hc (hms.mp hp)
    simp [Object.get, elapsedSince, h, hc, hnp]

/-- C4, witness: the amended theorem applied at `lu = 0`,
`now = 3000000` (3 ms elapsed, `ttl = 0`): the read fails. -/
theorem C4_witness :
    (0 : Nat) ≤ 3000000 ∧
    Object.get (⟨0, 0, (7 : Nat)⟩ : Object Nat) 3000000 =
      (if 1000000 ≤ 3000000 - 0 then some (Except.error TimeoutError.mk)
       else some (Except.ok 7)) :=
  ⟨by decide, C4_ttl_zero_first_read 7 0 3000000 (by decide)⟩

/-- C5, counterexample: `ttl = 1` (ms) and an elapsed time of
`1500000` ns = 1.5 ms, so `e > ttl`; the claim says `read()` fails with
`StaleError`, but `as_millis` truncates the elapsed time to `1`, which is
not `> 1`, and the read succeeds. -/
theorem C5_counterexample :
    (1 : Nat) * 1000000 < 1500000 - 0 ∧
    Object.get (T := Nat) ⟨1, 0, 100⟩ 1500000 = some (Except.ok 100) :=
  ⟨by decide, rfl⟩

/-- C5 (amended): for every `ttl ≥ 0` and every elapsed time (clock not
moved backwards), `get` succeeds with the current value iff the elapsed
time truncated to whole milliseconds is `≤ ttl`, and fails with
`TimeoutError` iff that truncation is `> ttl`; in particular an elapsed
time of exactly `ttl` milliseconds is not stale. -/
theorem C5_get_iff_millis_within_ttl (o : Object T) (now : Nat)
    (h : o.last_update ≤ now) :
    Object.get o now =
      if asMillis (now - o.last_update) ≤ o.ttl then some (Except.ok o.obj)
      else some (Except.error TimeoutError.mk) := by
  by_cases hs : asMillis (now - o.last_update) ≤ o.ttl
  · have hns : ¬ o.ttl < asMillis (now - o.last_update) := by omega
    simp [Object.get, elapsedSince, h, hs, hns]
  · have hlt : o.ttl < asMillis (now - o.last_update) := by omega
    simp [Object.get, elapsedSince, h, hs, hlt]

/-- C5, witness: the amended theorem applied at `ttl = 2`,
`last_update = 0`, `now = 2000000` — an elapsed time of exactly `ttl`
milliseconds, which is not stale: the read succeeds. -/
theorem C5_witness :
    (0 : Nat) ≤ 2000000 ∧
    Object.get (⟨2, 0, (7 : Nat)⟩ : Object Nat) 2000000 =
      (if asMillis (2000000 - 0) ≤ 2 then some (Except.ok 7)
       else some (Except.error TimeoutError.mk)) :=
  ⟨by decide, C5_get_iff_millis_within_ttl ⟨2, 0, 7⟩ 2000000 (by decide)⟩

/-- C6: `refresh` invokes the refresh operation exactly once — the call
count rises by exactly one with the outcome stream unchanged — with no
staleness precondition; on success it replaces `obj` with the produced
value and sets `last_update` to the completion time `now`; on failure it
propagates the operation's error unchanged and leaves `obj` and
`last_update` exactly as they were.  `ttl` is never changed. -/
theorem C6_refresh_contract (o : Object T) (w : World E T) (now : Nat) :
    ∃ r o2, Object.refresh o w now = (r, o2, ⟨w.refresh_fn, w.calls + 1⟩) ∧
      o2.ttl = o.ttl ∧
      (∀ v, w.refresh_fn w.calls = Except.ok v →
        r = Except.ok () ∧ o2.obj = v ∧ o2.last_update = now) ∧
      (∀ e, w.refresh_fn w.calls = Except.error e →
        r = Except.error e ∧ o2.obj = o.obj ∧ o2.last_update = o.last_update) := by
  cases hr : w.refresh_fn w.calls with
  | ok v =>
    refine ⟨Except.ok (), ⟨o.ttl, now, v⟩, ?_, rfl, ?_, ?_⟩
    · simp [Object.refresh, World.invoke, hr]
    · intro v2 hv2
      cases hv2
      exact ⟨rfl, rfl, rfl⟩
    · intro e he
      cases he
  | error e =>
    refine ⟨Except.error e, o, ?_, rfl, ?_, ?_⟩
    · simp [Object.refresh, World.invoke, hr]
    · intro v hv
      cases hv
    · intro e2 he2
      cases he2
      exact ⟨rfl, rfl, rfl⟩

/-- C6, witness: the contract applied at `ttl = 1`, `last_update = 0`,
`now = 7`, with a refresh operation that always returns `200`. -/
theorem C6_witness :
    ∃ r o2, Object.refresh (T := Nat) (E := Unit) ⟨1, 0, 100⟩
        ⟨fun _ => Except.ok 200, 0⟩ 7 =
        (r, o2, ⟨fun _ => Except.ok 200, 1⟩) ∧
      o2.ttl = 1 ∧
      (∀ v, (Except.ok 200 : Except Unit Nat) = Except.ok v →
        r = Except.ok () ∧ o2.obj = v ∧ o2.last_update = 7) ∧
      (∀ e, (Except.ok 200 : Except Unit Nat) = Except.error e →
        r = Except.error e ∧ o2.obj = 100 ∧ o2.last_update = 0) :=
  C6_refresh_contract ⟨1, 0, 100⟩ ⟨fun _ => Except.ok 200, 0⟩ 7

/-- C7: `new_and_refresh` invokes the refresh operation exactly once; when
that invocation succeeds with `v`, it returns an object whose `obj` is
`v`, whose `last_update` is the completion time `now` and whose `ttl` is
the supplied `ttl`; when it fails, no object is produced and the original
error is returned unchanged. -/
theorem C7_new_and_refresh_contract (ttl : Nat) (w : World E T) (now : Nat) :
    ∃ r, Object.new_and_refresh ttl w now = (r, ⟨w.refresh_fn, w.calls + 1⟩) ∧
      (∀ v, w.refresh_fn w.calls = Except.ok v →
        ∃ o2, r = Except.ok o2 ∧ o2.obj = v ∧ o2.last_update = now ∧
          o2.ttl = ttl) ∧
      (∀ e, w.refresh_fn w.calls = Except.error e → r = Except.error e) := by
  cases hr : w.refresh_fn w.calls with
  | ok v =>
    refine ⟨Except.ok ⟨ttl, now, v⟩, ?_, ?_, ?_⟩
    · simp [Object.new_and_refresh, World.invoke, hr]
    · intro v2 hv2
      cases hv2
      exact ⟨⟨ttl, now, v⟩, rfl, rfl, rfl, rfl⟩
    · intro e he
      cases he
  | error e =>
    refine ⟨Except.error e, ?_, ?_, ?_⟩
    · simp [Object.new_and_refresh, World.invoke, hr]
    · intro v hv
      cases hv
    · intro e2 he2
      cases he2
      rfl

/-- C7, witness: the contract applied at `ttl = 3`, `now = 11`, with a
refresh operation that always returns `9`. -/
theorem C7_witness :
    ∃ r, Object.new_and_refresh (T := Nat) (E := Unit) 3
        ⟨fun _ => Except.ok 9, 0⟩ 11 = (r, ⟨fun _ => Except.ok 9, 1⟩) ∧
      (∀ v, (Except.ok 9 : Except Unit Nat) = Except.ok v →
        ∃ o2, r = Except.ok o2 ∧ o2.obj = v ∧ o2.last_update = 11 ∧
          o2.ttl = 3) ∧
      (∀ e, (Except.ok 9 : Except Unit Nat) = Except.error e →
        r = Except.error e) :=
  C7_new_and_refresh_contract 3 ⟨fun _ => Except.ok 9, 0⟩ 11

/-- C8: `new` never invokes the refresh operation (the call count and the
outcome stream are unchanged) and cannot fail (its result type is a plain
pair, not a `Result`); the returned object's `obj` is exactly the supplied
value, its `last_update` is the construction time `now`, and its `ttl` is
the supplied `ttl`. -/
theorem C8_new_contract (ttl : Nat) (v : T) (w : World E T) (now : Nat) :
    (Object.new ttl v w now).2.calls = w.calls ∧
    (Object.new ttl v w now).2.refresh_fn = w.refresh_fn ∧
    (Object.new ttl v w now).1.obj = v ∧
    (Object.new ttl v w now).1.last_update = now ∧
    (Object.new ttl v w now).1.ttl = ttl :=
  ⟨rfl, rfl, rfl, rfl, rfl⟩

/-- C9: a `get` step never mutates any field of the object and never
invokes the refresh operation (object and world come out identical); and
`get_or_refresh` on a non-stale object returns the existing value with the
object and the world — in particular the invocation count — identical to
before, so the refresh operation is not invoked there either. -/
theorem C9_read_and_fresh_frame (o : Object T) (w : World E T) (now : Nat) :
    (∀ r o2 w2, step o w (Op.get now) = some (r, o2, w2) →
      o2 = o ∧ w2 = w) ∧
    (o.last_update ≤ now → asMillis (now - o.last_update) ≤ o.ttl →
      Object.get_or_refresh o w now = some (Except.ok o.obj, o, w)) := by
  constructor
  · intro r o2 w2 h
    simp only [step] at h
    cases hg : Object.get o now with
    | none =>
      rw [hg] at h
      exact Option.noConfusion h
    | some r0 =>
      rw [hg] at h
      cases h
      exact ⟨rfl, rfl⟩
  · intro h1 h2
    have hns : ¬ o.ttl < asMillis (now - o.last_update) := by omega
    simp [Object.get_or_refresh, elapsedSince, h1, hns]

/-- C9, witness: the fresh-path part applied at `ttl = 5`,
`last_update = 0`, `now = 1000000` (1 ms elapsed): the cached `42` is
returned and the call count stays `0`. -/
theorem C9_witness :
    Object.get_or_refresh (T := Nat) (E := Unit) ⟨5, 0, 42⟩
        ⟨fun _ => Except.ok 0, 0⟩ 1000000 =
      some (Except.ok 42, ⟨5, 0, 42⟩, ⟨fun _ => Except.ok 0, 0⟩) :=
  (C9_read_and_fresh_frame ⟨5, 0, 42⟩ ⟨fun _ => Except.ok 0, 0⟩ 1000000).2
    (by decide) (by decide)

/-- Helper: no single method call changes the `ttl` field. -/
theorem step_preserves_ttl (o : Object T) (w : World E T) (op : Op)
    (r : OpResult E T) (o2 : Object T) (w2 : World E T)
    (h : step o w op = some (r, o2, w2)) : o2.ttl = o.ttl := by
  cases op with
  | get now =>
    simp only [step] at h
    cases hg : Object.get o now with
    | none =>
      rw [hg] at h
      exact Option.noConfusion h
    | some r0 =>
      rw [hg] at h
      cases h
      rfl
  | refresh now =>
    simp only [step, Object.refresh, World.invoke] at h
    cases hr : w.refresh_fn w.calls with
    | ok v =>
      rw [hr] at h
      cases h
      rfl
    | error e =>
      rw [hr] at h
      cases h
      rfl
  | get_or_refresh now =>
    simp only [step] at h
    cases hg : Object.get_or_refresh o w now with
    | none =>
      rw [hg] at h
      exact Option.noConfusion h
    | some x =>
      obtain ⟨r0, o3, w3⟩ := x
      rw [hg] at h
      cases h
      exact (get_or_refresh_frame o w now r0 o2 w2 hg).2

/-- Helper: no sequence of method calls changes the `ttl` field. -/
theorem runOps_preserves_ttl (ops : List Op) (o : Object T) (w : World E T)
    (o2 : Object T) (w2 : World E T)
    (h : runOps o w ops = some (o2, w2)) : o2.ttl = o.ttl := by
  induction ops generalizing o w with
  | nil =>
    unfold runOps at h
    cases h
    rfl
  | cons op ops ih =>
    unfold runOps at h
    cases hs : step o w op with
    | none =>
      rw [hs] at h
      exact Option.noConfusion h
    | some x =>
      obtain ⟨r, o3, w3⟩ := x
      rw [hs] at h
      rw [ih o3 w3 h]
      exact step_preserves_ttl o w op r o3 w3 hs

/-- C10: the `ttl` field is immutable after construction — after any
sequence of `get`, `refresh` and `get_or_refresh` calls on an object built
by `new`, the `ttl` field still equals the value supplied to the
constructor (no operation writes it). -/
theorem C10_ttl_immutable (ttl : Nat) (v : T) (w0 : World E T) (t0 : Nat)
    (ops : List Op) (o2 : Object T) (w2 : World E T)
    (h : runOps (Object.new ttl v w0 t0).1 (Object.new ttl v w0 t0).2 ops =
      some (o2, w2)) :
    o2.ttl = ttl :=
  runOps_preserves_ttl ops (Object.new ttl v w0 t0).1
    (Object.new ttl v w0 t0).2 o2 w2 h

/-- C10, witness: a concrete three-call run — a fresh read, a successful
manual refresh, then a stale `get_or_refresh` — starting from
`new 2 100 _ 0`; the final object still has `ttl = 2`. -/
theorem C10_witness :
    runOps
        (Object.new 2 (100 : Nat)
          (⟨fun _ => Except.ok 200, 0⟩ : World Unit Nat) 0).1
        (Object.new 2 (100 : Nat)
          (⟨fun _ => Except.ok 200, 0⟩ : World Unit Nat) 0).2
        [Op.get 0, Op.refresh 10, Op.get_or_refresh 9000000] =
      some (⟨2, 10, 200⟩, ⟨fun _ => Except.ok 200, 2⟩) ∧
    (Object.mk 2 10 (200 : Nat)).ttl = 2 :=
  ⟨rfl, C10_ttl_immutable 2 (100 : Nat)
    (⟨fun _ => Except.ok 200, 0⟩ : World Unit Nat) 0
    [Op.get 0, Op.refresh 10, Op.get_or_refresh 9000000] ⟨2, 10, 200⟩
    ⟨fun _ => Except.ok 200, 2⟩ rfl⟩
